import Mathlib

/-!
Verification of the data-access and mutation layer of the invoicing dashboard.

The embedding models the Prisma-backed store as explicit lists of rows, and
each query/mutation function as a pure function over that store.  JavaScript
numbers are modelled as exact rationals (ℚ); `FormData` is a list of key/value
string pairs; the view-invalidation collaborator is modelled by a Boolean flag
recording whether it was invoked; the framework redirect is a distinguished
result constructor.  The ORM interface is modelled per its specified contract:
a `where` condition whose comparison value is `undefined` contributes no
constraint (so inside an `OR` that branch matches nothing), record creation
assigns a fresh id, and `update`/`delete` on a missing id fail with a caught
store fault.
-/

namespace NextDashboard

/-- Customer row: Customer(id, name, email, image_url). -/
structure Customer where
  id : String
  name : String
  email : String
  image_url : String
deriving DecidableEq

/-- Invoice row: Invoice(id, customer_id, amount, status, date); `amount` is
stored in minor currency units (cents). -/
structure Invoice where
  id : String
  customer_id : String
  amount : ℚ
  status : String
  date : String
deriving DecidableEq

/-- Revenue row: Revenue(month, revenue). -/
structure Rev where
  month : String
  revenue : ℚ
deriving DecidableEq

/-- The relational store: the three tables this layer reads and writes. -/
structure Store where
  customers : List Customer
  invoices : List Invoice
  revenue : List Rev
deriving DecidableEq

/-! ### JavaScript `Number()` conversion, for `Number(query)` / `z.coerce.number()`

Modelled for decimal numeric strings: optional surrounding whitespace, optional
sign, digits with an optional decimal point, optional decimal exponent; the
empty (or all-whitespace) string converts to 0; anything else is NaN (`none`).
A parsed number is kept as an exact mantissa/exponent pair whose rational
value is given by `qval`; this is the exact value JavaScript's decimal literal
notation denotes.
-/

/-- An exact decimal number `m * 10 ^ e`. -/
structure DecNum where
  m : Int
  e : Int
deriving DecidableEq

/-- The rational value of a parsed decimal number. -/
def qval (d : DecNum) : ℚ := (d.m : ℚ) * (10 : ℚ) ^ d.e

def isDigit (c : Char) : Bool := decide ('0' ≤ c) && decide (c ≤ '9')

def digitVal (c : Char) : Nat := c.toNat - 48

def natOfDigits (l : List Char) : Nat := l.foldl (fun a c => 10 * a + digitVal c) 0

def isWS (c : Char) : Bool := c == ' ' || c == '\t' || c == '\n' || c == '\r'

def trimWS (l : List Char) : List Char :=
  ((l.dropWhile isWS).reverse.dropWhile isWS).reverse

/-- Split a character list at the first occurrence of `c`, if any. -/
def splitOn1 (c : Char) : List Char → Option (List Char × List Char)
  | [] => none
  | d :: t => if d == c then some ([], t) else (splitOn1 c t).map (fun p => (d :: p.1, p.2))

/-- Split at the first `e`/`E` (exponent marker), if any. -/
def splitExp : List Char → Option (List Char × List Char)
  | [] => none
  | d :: t => if d == 'e' || d == 'E' then some ([], t) else (splitExp t).map (fun p => (d :: p.1, p.2))

/-- Parse an unsigned decimal mantissa: digits, optionally with one `.`. -/
def parseMantissa (l : List Char) : Option DecNum :=
  match splitOn1 '.' l with
  | none => if !l.isEmpty && l.all isDigit then some ⟨(natOfDigits l : Int), 0⟩ else none
  | some (ip, fp) =>
    if !(ip ++ fp).isEmpty && ip.all isDigit && fp.all isDigit then
      some ⟨(natOfDigits (ip ++ fp) : Int), -(fp.length : Int)⟩
    else none

/-- Parse a signed decimal exponent. -/
def parseExp (l : List Char) : Option Int :=
  match l with
  | '+' :: t => if !t.isEmpty && t.all isDigit then some ((natOfDigits t : Nat) : Int) else none
  | '-' :: t => if !t.isEmpty && t.all isDigit then some (-((natOfDigits t : Nat) : Int)) else none
  | t => if !t.isEmpty && t.all isDigit then some ((natOfDigits t : Nat) : Int) else none

/-- JavaScript `Number(s)` for a string: `none` models NaN. -/
def jsNumber (s : String) : Option DecNum :=
  let l := trimWS s.toList
  if l.isEmpty then some ⟨0, 0⟩
  else
    let sign : Int := match l with
      | '-' :: _ => -1
      | _ => 1
    let body := match l with
      | '-' :: t => t
      | '+' :: t => t
      | t => t
    match splitExp body with
    | none => (parseMantissa body).map (fun d => ⟨sign * d.m, d.e⟩)
    | some (mp, ep) =>
      match parseMantissa mp, parseExp ep with
      | some d, some ev => some ⟨sign * d.m, d.e + ev⟩
      | _, _ => none

/-! ### Case-insensitive substring matching (Prisma `contains`, `mode: "insensitive"`) -/

/-- `startsWithList nee hay`: `nee` is a leading segment of `hay`. -/
def startsWithList : List Char → List Char → Bool
  | [], _ => true
  | _ :: _, [] => false
  | c :: cs, d :: ds => c == d && startsWithList cs ds

/-- `hasSub nee hay`: `nee` occurs contiguously inside `hay`. -/
def hasSub (nee : List Char) : List Char → Bool
  | [] => nee.isEmpty
  | c :: t => startsWithList nee (c :: t) || hasSub nee t

def lowerList (s : String) : List Char := s.toList.map Char.toLower

/-- `ciContains hay q`: case-insensitive `hay.contains(q)`. -/
def ciContains (hay q : String) : Bool := hasSub (lowerList q) (lowerList hay)

/-! ### Query module -/

/-- `prisma.customer` lookup by id (the invoice→customer relation). -/
def findCustomer (s : Store) (cid : String) : Option Customer :=
  s.customers.find? (fun c => c.id == cid)

/-- OR-branch: `{ customer: { name: { contains: query, mode: "insensitive" } } }`. -/
def customerNameMatch (s : Store) (q : String) (inv : Invoice) : Bool :=
  match findCustomer s inv.customer_id with
  | some c => ciContains c.name q
  | none => false

/-- OR-branch: `{ customer: { email: { contains: query, mode: "insensitive" } } }`. -/
def customerEmailMatch (s : Store) (q : String) (inv : Invoice) : Bool :=
  match findCustomer s inv.customer_id with
  | some c => ciContains c.email q
  | none => false

/-- OR-branch: `{ amount: { equals: isNaN(Number(query)) ? undefined : Number(query) } }`.
An `undefined` comparison value drops the constraint, so the branch matches
nothing inside the OR. -/
def amountMatch (q : String) (inv : Invoice) : Bool :=
  match jsNumber q with
  | some n => inv.amount == qval n
  | none => false

/-- The shared `where` clause of `fetchFilteredInvoices` / `fetchInvoicesPages`:
OR over customer name, customer email, amount equality, exact date, status. -/
def invoiceMatches (s : Store) (q : String) (inv : Invoice) : Bool :=
  customerNameMatch s q inv || customerEmailMatch s q inv || amountMatch q inv ||
    inv.date == q || ciContains inv.status q

def matchingInvoices (s : Store) (q : String) : List Invoice :=
  s.invoices.filter (invoiceMatches s q)

/-- Lexicographic order on character lists (the store's ordering on the ASCII
date strings). -/
def lexLe : List Char → List Char → Bool
  | [], _ => true
  | _ :: _, [] => false
  | a :: as, b :: bs => if a = b then lexLe as bs else decide (a.toNat < b.toNat)

def strLe (a b : String) : Bool := lexLe a.toList b.toList

/-- `orderBy: { date: "desc" }` as a relation for a stable sort. -/
def dateDesc (a b : Invoice) : Prop := strLe b.date a.date = true

instance : DecidableRel dateDesc := fun _ _ => Bool.decEq _ _

def sortByDateDesc (l : List Invoice) : List Invoice := List.insertionSort dateDesc l

/-- The row shape returned by `fetchFilteredInvoices` (invoice joined with its
customer's display fields). -/
structure InvoiceRow where
  id : String
  amount : ℚ
  date : String
  status : String
  name : String
  email : String
  image_url : String
deriving DecidableEq

def rowOf (s : Store) (inv : Invoice) : InvoiceRow :=
  let c := (findCustomer s inv.customer_id).getD ⟨"", "", "", ""⟩
  ⟨inv.id, inv.amount, inv.date, inv.status, c.name, c.email, c.image_url⟩

def ITEMS_PER_PAGE : Nat := 6

/-- `fetchFilteredInvoices(query, currentPage)`: matching invoices sorted by
date descending, `skip (currentPage - 1) * 6`, `take 6`, joined with customer
fields.  A negative offset is clamped at the start of the list. -/
def fetchFilteredInvoices (s : Store) (q : String) (currentPage : Int) : List InvoiceRow :=
  let offset : Int := (currentPage - 1) * (ITEMS_PER_PAGE : Int)
  (((sortByDateDesc (matchingInvoices s q)).drop offset.toNat).take ITEMS_PER_PAGE).map (rowOf s)

/-- `fetchInvoicesPages(query)`: `Math.ceil(count / 6)` for the same `where`
clause. -/
def fetchInvoicesPages (s : Store) (q : String) : Nat :=
  ((matchingInvoices s q).length + (ITEMS_PER_PAGE - 1)) / ITEMS_PER_PAGE

/-- The shape returned by `fetchInvoiceById`. -/
structure InvoiceForm where
  id : String
  customer_id : String
  amount : ℚ
  status : String
deriving DecidableEq

/-- `fetchInvoiceById(id)`: unique lookup; on a hit the amount is converted
from cents to dollars (`/ 100`); absence yields `null`. -/
def fetchInvoiceById (s : Store) (id : String) : Option InvoiceForm :=
  match s.invoices.find? (fun inv => inv.id == id) with
  | some inv => some ⟨inv.id, inv.customer_id, inv.amount / 100, inv.status⟩
  | none => none

/-- `fetchRevenue()`: `prisma.revenue.findMany()` with no `orderBy` — the rows
are returned in store order. -/
def fetchRevenue (s : Store) : List Rev := s.revenue

/-- Calendar index of a month name, for stating "ordered by month". -/
def monthNum : String → Nat
  | "Jan" => 1
  | "Feb" => 2
  | "Mar" => 3
  | "Apr" => 4
  | "May" => 5
  | "Jun" => 6
  | "Jul" => 7
  | "Aug" => 8
  | "Sep" => 9
  | "Oct" => 10
  | "Nov" => 11
  | "Dec" => 12
  | _ => 0

/-! ### Validation schema (`InvoiceSchema.omit({ id: true, date: true })`) -/

/-- Field-keyed error lists, as produced by `error.flatten().fieldErrors`. -/
structure FieldErrors where
  customer_id : List String
  amount : List String
  status : List String
deriving DecidableEq

/-- The narrowed values on validation success. -/
structure ValidatedInvoice where
  customer_id : String
  amount : ℚ
  status : String
deriving DecidableEq

/-- Submitted form input: a flat string-keyed map; `fdGet` is `formData.get`
(first entry, or null). -/
abbrev FormData := List (String × String)

def fdGet (f : FormData) (k : String) : Option String :=
  (f.find? (fun p => p.1 == k)).map Prod.snd

/-- `customer_id: z.string({ invalid_type_error: "Please select a customer." })`. -/
def parseCustomerId : Option String → Except (List String) String
  | some s => .ok s
  | none => .error ["Please select a customer."]

/-- `z.coerce` runs `Number(input)`; `Number(null) = 0`. -/
def coerceNumber : Option String → Option DecNum
  | none => some ⟨0, 0⟩
  | some s => jsNumber s

/-- `amount: z.coerce.number().gt(0, { message: "Please enter an amount greater than $0." })`.
The coerced value `d.m * 10 ^ d.e` is greater than 0 exactly when its mantissa
is. -/
def parseAmount (v : Option String) : Except (List String) ℚ :=
  match coerceNumber v with
  | none => .error ["Expected number, received nan"]
  | some d => if 0 < d.m then .ok (qval d) else .error ["Please enter an amount greater than $0."]

/-- `status: z.enum(["pending", "paid"], { invalid_type_error: "Please select an invoice status." })`. -/
def parseStatus : Option String → Except (List String) String
  | none => .error ["Please select an invoice status."]
  | some s => if s == "pending" || s == "paid" then .ok s
              else .error ["Please select an invoice status."]

def errsOf {α : Type} : Except (List String) α → List String
  | .ok _ => []
  | .error e => e

/-- `CreateInvoice.safeParse` / `UpdateInvoice.safeParse` over the three form
fields (both schemas are `InvoiceSchema.omit({ id: true, date: true })`). -/
def safeParseInvoiceForm (form : FormData) : Except FieldErrors ValidatedInvoice :=
  match parseCustomerId (fdGet form "customer_id"), parseAmount (fdGet form "amount"),
        parseStatus (fdGet form "status") with
  | .ok c, .ok a, .ok st => .ok ⟨c, a, st⟩
  | rc, ra, rs => .error ⟨errsOf rc, errsOf ra, errsOf rs⟩

/-! ### Mutation actions -/

/-- Outcome of a create/update action: validation-error state, caught store
fault, or the terminal redirect. -/
inductive ActionResult where
  | validationError (errors : FieldErrors) (message : String)
  | dbError (message : String)
  | redirect (path : String)
deriving DecidableEq

/-- An action's result together with the resulting store and whether the
view-invalidation collaborator (`revalidatePath`) was invoked. -/
structure ActionOutcome where
  result : ActionResult
  store : Store
  revalidated : Bool
deriving DecidableEq

/-- `createInvoice(prevState, formData)`: validate → `amount * 100` → stamp
`today` as the date → insert (fails on a dangling customer_id foreign key)
→ revalidate → redirect.  `newId` models the store-generated id. -/
def createInvoice (s : Store) (today newId : String) (form : FormData) : ActionOutcome :=
  match safeParseInvoiceForm form with
  | .error fe => ⟨.validationError fe "Missing Fields. Failed to Create Invoice.", s, false⟩
  | .ok v =>
    let amountInCents := v.amount * 100
    if (findCustomer s v.customer_id).isSome then
      ⟨.redirect "/dashboard/invoices",
       { s with invoices := s.invoices ++ [⟨newId, v.customer_id, amountInCents, v.status, today⟩] },
       true⟩
    else ⟨.dbError "Database Error: Failed to Create Invoice.", s, false⟩

/-- `updateInvoice(id, prevState, formData)`: same validation; updates the
row's customer_id/amount(×100)/status, leaving its date untouched; the update
fails (caught) when the id is absent or the new customer_id dangles. -/
def updateInvoice (s : Store) (id : String) (form : FormData) : ActionOutcome :=
  match safeParseInvoiceForm form with
  | .error fe => ⟨.validationError fe "Missing Fields. Failed to Update Invoice.", s, false⟩
  | .ok v =>
    let amountInCents := v.amount * 100
    if (s.invoices.any (fun inv => inv.id == id)) && (findCustomer s v.customer_id).isSome then
      ⟨.redirect "/dashboard/invoices",
       { s with invoices := s.invoices.map (fun inv =>
           if inv.id == id then
             { inv with customer_id := v.customer_id, amount := amountInCents, status := v.status }
           else inv) },
       true⟩
    else ⟨.dbError "Database Error: Failed to Update Invoice.", s, false⟩

/-- Outcome of `deleteInvoice`: the optional returned message, the resulting
store, and whether `revalidatePath` ran. -/
structure DeleteOutcome where
  message : Option String
  store : Store
  revalidated : Bool
deriving DecidableEq

/-- `deleteInvoice(id)`: `prisma.invoice.delete` throws on a missing id; the
catch returns the generic message and skips `revalidatePath`. -/
def deleteInvoice (s : Store) (id : String) : DeleteOutcome :=
  if s.invoices.any (fun inv => inv.id == id) then
    ⟨none, { s with invoices := s.invoices.filter (fun inv => inv.id != id) }, true⟩
  else
    ⟨some "Database Error: Failed to Delete Invoice.", s, false⟩

/-- `authenticate(prevState, formData)`: the identity collaborator's outcome is
an `Except` whose error carries the thrown error's message string.  A message
containing `"CredentialsSignin"` is converted to the sentinel
`"CredentialSignin"`; any other error is re-raised (`.error`). -/
def authenticate (signInResult : Except String Unit) : Except String (Option String) :=
  match signInResult with
  | .ok _ => .ok none
  | .error msg =>
    if hasSub "CredentialsSignin".toList msg.toList then .ok (some "CredentialSignin")
    else .error msg

/-! ### Concrete fixtures for witness and counterexample theorems -/

def custA : Customer := ⟨"c1", "Alice", "alice@mail.example", "/img/a.png"⟩

def custB : Customer := ⟨"c2", "Bob", "bob@mail.example", "/img/b.png"⟩

/-- One customer, no invoices. -/
def wStore : Store := ⟨[custA], [], []⟩

def invW : Invoice := ⟨"i1", "c1", 1999, "paid", "2024-02-01"⟩

/-- One customer, one invoice. -/
def wStore1 : Store := ⟨[custA], [invW], []⟩

/-- Seven matching invoices: two pages worth under page size 6. -/
def inv7 : Invoice := ⟨"i7", "c1", 700, "pending", "2024-01-01"⟩

def store7 : Store :=
  ⟨[custA],
   [⟨"i1", "c1", 100, "paid", "2024-01-07"⟩,
    ⟨"i2", "c1", 200, "pending", "2024-01-06"⟩,
    ⟨"i3", "c1", 300, "paid", "2024-01-05"⟩,
    ⟨"i4", "c1", 400, "pending", "2024-01-04"⟩,
    ⟨"i5", "c1", 500, "paid", "2024-01-03"⟩,
    ⟨"i6", "c1", 600, "pending", "2024-01-02"⟩,
    inv7],
   []⟩

/-- Revenue rows stored out of month order (December before April). -/
def revStore : Store := ⟨[], [], [⟨"Dec", 5⟩, ⟨"Apr", 3⟩]⟩

/-- Two customers, two invoices; used to exercise the update frame property. -/
def store2 : Store :=
  ⟨[custA, custB],
   [⟨"i1", "c1", 500, "pending", "2024-02-01"⟩,
    ⟨"i2", "c2", 700, "paid", "2024-02-02"⟩],
   []⟩

def emptyStore : Store := ⟨[], [], []⟩

/-- A valid create form with amount 19.99. -/
def cform : FormData := [("customer_id", "c1"), ("amount", "19.99"), ("status", "paid")]

/-- An invalid form: negative amount and unknown status. -/
def badForm : FormData := [("customer_id", "c1"), ("amount", "-5"), ("status", "nope")]

/-- A valid update form. -/
def uform : FormData := [("customer_id", "c2"), ("amount", "25"), ("status", "paid")]

/-- Same create data as `f2w` plus extraneous `id` and `date` entries. -/
def f1w : FormData :=
  [("id", "evil"), ("date", "1999-01-01"),
   ("customer_id", "c1"), ("amount", "10"), ("status", "pending")]

def f2w : FormData := [("customer_id", "c1"), ("amount", "10"), ("status", "pending")]

/-! ### Helper lemmas: the date order is total and transitive -/

theorem charToNat_ne {a b : Char} (h : a ≠ b) : a.toNat ≠ b.toNat := by
  intro he
  apply h
  have h2 : Char.ofNat a.toNat = Char.ofNat b.toNat := by rw [he]
  simpa using h2

theorem lexLe_total : ∀ (a b : List Char), lexLe a b = true ∨ lexLe b a = true
  | [], _ => Or.inl rfl
  | _ :: _, [] => Or.inr rfl
  | a :: as, b :: bs => by
    by_cases h : a = b
    · subst h
      simpa [lexLe] using lexLe_total as bs
    · have h2 : ¬ b = a := fun he => h he.symm
      have h3 := charToNat_ne h
      simp only [lexLe, if_neg h, if_neg h2, decide_eq_true_eq]
      omega

theorem lexLe_trans : ∀ (a b c : List Char),
    lexLe a b = true → lexLe b c = true → lexLe a c = true
  | [], _, _, _, _ => rfl
  | _ :: _, [], _, h1, _ => by simp [lexLe] at h1
  | _ :: _, _ :: _, [], _, h2 => by simp [lexLe] at h2
  | a :: as, b :: bs, c :: cs, h1, h2 => by
    by_cases hab : a = b
    · subst hab
      by_cases hac : a = c
      · subst hac
        simp only [lexLe, if_pos rfl] at h1 h2 ⊢
        exact lexLe_trans as bs cs h1 h2
      · simp only [lexLe, if_neg hac] at h2 ⊢
        exact h2
    · by_cases hbc : b = c
      · subst hbc
        simp only [lexLe, if_neg hab] at h1 ⊢
        exact h1
      · simp only [lexLe, if_neg hab, decide_eq_true_eq] at h1
        simp only [lexLe, if_neg hbc, decide_eq_true_eq] at h2
        have hane : a ≠ c := by
          intro he
          subst he
          omega
        simp only [lexLe, if_neg hane, decide_eq_true_eq]
        omega

instance : IsTotal Invoice dateDesc :=
  ⟨fun a b => lexLe_total b.date.toList a.date.toList⟩

instance : IsTrans Invoice dateDesc :=
  ⟨fun a b c h1 h2 => lexLe_trans c.date.toList b.date.toList a.date.toList h2 h1⟩

/-! ### Helper lemmas: concatenating consecutive size-6 chunks recovers a list -/

theorem chunkPrefix {α : Type} (k : Nat) (l : List α) :
    ((List.range k).map (fun p => (l.drop (p * 6)).take 6)).flatten = l.take (k * 6) := by
  induction k with
  | zero => simp
  | succ k ih =>
    rw [List.range_succ, List.map_append, List.flatten_append, ih]
    simp [Nat.succ_mul, List.take_add]

theorem chunkCover {α : Type} (l : List α) :
    ((List.range ((l.length + 5) / 6)).map (fun p => (l.drop (p * 6)).take 6)).flatten = l := by
  rw [chunkPrefix]
  exact List.take_of_length_le (by omega)

/-! ### Claims -/

/-- Claim C5: for every id not present in the invoice table, `deleteInvoice id`
returns `{message: "Database Error: Failed to Delete Invoice."}`, leaves the
store unchanged, and does not invoke the view-invalidation collaborator (its
total return type shows no exception escapes). -/
theorem deleteInvoice_missing_id (s : Store) (id : String)
    (h : ∀ inv ∈ s.invoices, inv.id ≠ id) :
    deleteInvoice s id = ⟨some "Database Error: Failed to Delete Invoice.", s, false⟩ := by
  have ha : s.invoices.any (fun inv => inv.id == id) = false := by
    simp only [List.any_eq_false]
    intro inv hm
    simpa using h inv hm
  simp [deleteInvoice, ha]

/-- Witness for C5 at a concrete store and id. -/
theorem deleteInvoice_missing_id_witness :
    (∀ inv ∈ store7.invoices, inv.id ≠ "zz") ∧
    deleteInvoice store7 "zz" = ⟨some "Database Error: Failed to Delete Invoice.", store7, false⟩ :=
  ⟨by decide, deleteInvoice_missing_id store7 "zz" (by decide)⟩

/-- Claim C6: when the identity collaborator rejects with an error whose
message contains the `CredentialsSignin` signature, `authenticate` returns the
sentinel `"CredentialSignin"`; any other error is re-raised unchanged. -/
theorem authenticate_sentinel_or_reraise (e : String) :
    (hasSub "CredentialsSignin".toList e.toList = true →
      authenticate (.error e) = .ok (some "CredentialSignin")) ∧
    (hasSub "CredentialsSignin".toList e.toList = false →
      authenticate (.error e) = .error e) := by
  have hred : authenticate (.error e) =
      (if hasSub "CredentialsSignin".toList e.toList then .ok (some "CredentialSignin")
       else .error e) := rfl
  rw [hred]
  constructor <;> intro h <;> rw [h] <;> simp

/-- Witness for C6 on a matching and a non-matching error message. -/
theorem authenticate_sentinel_or_reraise_witness :
    authenticate (.error "Error: CredentialsSignin was raised") = .ok (some "CredentialSignin") ∧
    authenticate (.error "boom") = .error "boom" :=
  ⟨(authenticate_sentinel_or_reraise "Error: CredentialsSignin was raised").1 (by decide),
   (authenticate_sentinel_or_reraise "boom").2 (by decide)⟩

/-- Claim C7 counterexample: `fetchRevenue` applies no ordering, so a store
whose revenue rows are out of month order (December before April) is returned
unsorted — both under calendar month order and under lexicographic month-name
order. -/
theorem fetchRevenue_unordered_counterexample :
    fetchRevenue revStore = [⟨"Dec", 5⟩, ⟨"Apr", 3⟩] ∧
    ¬ List.Pairwise (fun a b : Rev => monthNum a.month ≤ monthNum b.month) (fetchRevenue revStore) ∧
    ¬ List.Pairwise (fun a b : Rev => strLe a.month b.month = true) (fetchRevenue revStore) := by
  refine ⟨rfl, ?_, ?_⟩ <;> decide

/-- Claim C7 (amended): `fetchRevenue` returns the `{month, revenue}` records
in the order they appear in the store; no sorting by month is applied. -/
theorem fetchRevenue_returns_store_order (s : Store) : fetchRevenue s = s.revenue := rfl

/-- Claim C9: a query matching zero invoices yields a page count of 0 (no
minimum of 1 is imposed). -/
theorem fetchInvoicesPages_zero_when_no_match (s : Store) (q : String)
    (h : matchingInvoices s q = []) : fetchInvoicesPages s q = 0 := by
  unfold fetchInvoicesPages
  rw [h]
  rfl

/-- Witness for C9 on an empty store. -/
theorem fetchInvoicesPages_zero_when_no_match_witness :
    matchingInvoices emptyStore "zzz" = [] ∧ fetchInvoicesPages emptyStore "zzz" = 0 :=
  ⟨by decide, fetchInvoicesPages_zero_when_no_match emptyStore "zzz" (by decide)⟩

/-- Claim C1: when the query does not parse as a number (`Number(query)` is
NaN), the amount-equality branch never matches: an invoice matches the filter
of `fetchFilteredInvoices`/`fetchInvoicesPages` exactly when the query occurs
case-insensitively in the customer's name, the customer's email or the invoice
status, or equals the invoice date — and both functions compute from that
four-branch predicate. -/
theorem nonNumericQuery_never_matches_amount (s : Store) (q : String) (inv : Invoice) (p : Int)
    (h : jsNumber q = none) :
    (invoiceMatches s q inv =
      (customerNameMatch s q inv || customerEmailMatch s q inv ||
        inv.date == q || ciContains inv.status q)) ∧
    fetchFilteredInvoices s q p =
      (((sortByDateDesc (s.invoices.filter (fun i =>
          customerNameMatch s q i || customerEmailMatch s q i ||
            i.date == q || ciContains i.status q))).drop (((p - 1) * 6).toNat)).take 6).map
        (rowOf s) ∧
    fetchInvoicesPages s q =
      ((s.invoices.filter (fun i =>
          customerNameMatch s q i || customerEmailMatch s q i ||
            i.date == q || ciContains i.status q)).length + 5) / 6 := by
  have hm : ∀ i : Invoice, invoiceMatches s q i =
      (customerNameMatch s q i || customerEmailMatch s q i ||
        i.date == q || ciContains i.status q) := by
    intro i
    unfold invoiceMatches amountMatch
    rw [h]
    cases customerNameMatch s q i <;> cases customerEmailMatch s q i <;> simp
  have hf : matchingInvoices s q = s.invoices.filter (fun i =>
      customerNameMatch s q i || customerEmailMatch s q i ||
        i.date == q || ciContains i.status q) :=
    List.filter_congr (fun i _ => hm i)
  refine ⟨hm inv, ?_, ?_⟩
  · unfold fetchFilteredInvoices
    rw [hf]
    rfl
  · unfold fetchInvoicesPages
    rw [hf]
    rfl

/-- Witness for C1 at the non-numeric query "abc". -/
theorem nonNumericQuery_never_matches_amount_witness :
    jsNumber "abc" = none ∧
    ((invoiceMatches wStore1 "abc" invW =
      (customerNameMatch wStore1 "abc" invW || customerEmailMatch wStore1 "abc" invW ||
        invW.date == "abc" || ciContains invW.status "abc")) ∧
    fetchFilteredInvoices wStore1 "abc" 1 =
      (((sortByDateDesc (wStore1.invoices.filter (fun i =>
          customerNameMatch wStore1 "abc" i || customerEmailMatch wStore1 "abc" i ||
            i.date == "abc" || ciContains i.status "abc"))).drop ((((1 : Int) - 1) * 6).toNat)).take 6).map
        (rowOf wStore1) ∧
    fetchInvoicesPages wStore1 "abc" =
      ((wStore1.invoices.filter (fun i =>
          customerNameMatch wStore1 "abc" i || customerEmailMatch wStore1 "abc" i ||
            i.date == "abc" || ciContains i.status "abc")).length + 5) / 6) :=
  ⟨by decide, nonNumericQuery_never_matches_amount wStore1 "abc" invW 1 (by decide)⟩

/-- Claim C2: an invoice created with validated amount 19.99 is persisted with
the integer minor-unit amount 1999 (amount × 100), and `fetchInvoiceById` on
that invoice returns amount 19.99 (persisted amount ÷ 100). -/
theorem createInvoice_roundTrip_1999 (s : Store) (today newId : String) (form : FormData)
    (v : ValidatedInvoice)
    (hv : safeParseInvoiceForm form = .ok v)
    (ha : v.amount = (1999 : ℚ) / 100)
    (hc : (findCustomer s v.customer_id).isSome = true)
    (hfresh : ∀ inv ∈ s.invoices, inv.id ≠ newId) :
    (createInvoice s today newId form).store.invoices
      = s.invoices ++ [⟨newId, v.customer_id, 1999, v.status, today⟩] ∧
    fetchInvoiceById (createInvoice s today newId form).store newId
      = some ⟨newId, v.customer_id, (1999 : ℚ) / 100, v.status⟩ := by
  have hcents : v.amount * 100 = (1999 : ℚ) := by rw [ha]; norm_num
  have hstore : (createInvoice s today newId form).store.invoices
      = s.invoices ++ [⟨newId, v.customer_id, 1999, v.status, today⟩] := by
    unfold createInvoice
    rw [hv]
    simp only [hc, if_pos]
    rw [hcents]
  refine ⟨hstore, ?_⟩
  unfold fetchInvoiceById
  rw [hstore, List.find?_append]
  have hnone : s.invoices.find? (fun inv => inv.id == newId) = none := by
    rw [List.find?_eq_none]
    intro inv hm
    simpa using hfresh inv hm
  rw [hnone]
  simp

/-- Witness for C2: the round trip on a concrete store and form. -/
theorem createInvoice_roundTrip_1999_witness :
    safeParseInvoiceForm cform = .ok ⟨"c1", qval ⟨1999, -2⟩, "paid"⟩ ∧
    qval ⟨1999, -2⟩ = (1999 : ℚ) / 100 ∧
    ((createInvoice wStore "2026-10-11" "i9" cform).store.invoices
      = wStore.invoices ++ [⟨"i9", "c1", 1999, "paid", "2026-10-11"⟩] ∧
     fetchInvoiceById (createInvoice wStore "2026-10-11" "i9" cform).store "i9"
      = some ⟨"i9", "c1", (1999 : ℚ) / 100, "paid"⟩) :=
  ⟨rfl, by norm_num [qval],
   createInvoice_roundTrip_1999 wStore "2026-10-11" "i9" cform ⟨"c1", qval ⟨1999, -2⟩, "paid"⟩
     rfl (by norm_num [qval]) rfl (by decide)⟩

/-- Claim C10: `createInvoice` reads only the customer_id, amount and status
entries of the form: two forms agreeing on those three fields produce the same
outcome, and on success the persisted row's date is the server-assigned
current date. -/
theorem createInvoice_ignores_id_and_date (s : Store) (today newId : String) (f1 f2 : FormData)
    (hc : fdGet f1 "customer_id" = fdGet f2 "customer_id")
    (ha : fdGet f1 "amount" = fdGet f2 "amount")
    (hs : fdGet f1 "status" = fdGet f2 "status") :
    createInvoice s today newId f1 = createInvoice s today newId f2 ∧
    (∀ v : ValidatedInvoice, safeParseInvoiceForm f1 = .ok v →
      (findCustomer s v.customer_id).isSome = true →
      (createInvoice s today newId f1).store.invoices
        = s.invoices ++ [⟨newId, v.customer_id, v.amount * 100, v.status, today⟩]) := by
  have hp : safeParseInvoiceForm f1 = safeParseInvoiceForm f2 := by
    unfold safeParseInvoiceForm
    rw [hc, ha, hs]
  constructor
  · unfold createInvoice
    rw [hp]
  · intro v hv hcu
    unfold createInvoice
    rw [hv]
    simp [hcu]

/-- Witness for C10: a form with extraneous id and date entries behaves the
same as one without them. -/
theorem createInvoice_ignores_id_and_date_witness :
    (fdGet f1w "customer_id" = fdGet f2w "customer_id" ∧
     fdGet f1w "amount" = fdGet f2w "amount" ∧
     fdGet f1w "status" = fdGet f2w "status") ∧
    createInvoice wStore "2026-10-11" "i9" f1w = createInvoice wStore "2026-10-11" "i9" f2w :=
  ⟨⟨rfl, rfl, rfl⟩,
   (createInvoice_ignores_id_and_date wStore "2026-10-11" "i9" f1w f2w rfl rfl rfl).1⟩

/-- Claim C3 counterexample: pagination in the code is 1-indexed
(`offset = (currentPage - 1) * 6`), so concatenating pages for consecutive
page indices starting at 0 does not return every matching invoice: on a store
with 7 matching invoices the page count is 2, yet pages 0 and 1 both return
the first 6 rows and the 7th matching invoice (`inv7`) never appears. -/
theorem zeroIndexed_pages_miss_an_invoice :
    fetchInvoicesPages store7 "a" = 2 ∧
    inv7 ∈ matchingInvoices store7 "a" ∧
    (((List.range (fetchInvoicesPages store7 "a")).map
        (fun p => fetchFilteredInvoices store7 "a" (Int.ofNat p))).flatten).count
      (rowOf store7 inv7) = 0 := by
  refine ⟨?_, ?_, ?_⟩ <;> decide

/-- Claim C3 (amended): `fetchInvoicesPages query` equals ceil(n / 6) for the
number n of invoices matching the same predicate as `fetchFilteredInvoices`,
and concatenating the pages for consecutive page indices starting at 1 yields
every matching invoice exactly once (a permutation of the matching rows),
ordered by date descending. -/
theorem fetchInvoicesPages_consistent_with_fetchFilteredInvoices (s : Store) (q : String) :
    fetchInvoicesPages s q = ((matchingInvoices s q).length + 5) / 6 ∧
    ((List.range (fetchInvoicesPages s q)).map
        (fun p => fetchFilteredInvoices s q (Int.ofNat p + 1))).flatten
      = (sortByDateDesc (matchingInvoices s q)).map (rowOf s) ∧
    (sortByDateDesc (matchingInvoices s q)).Perm (matchingInvoices s q) ∧
    List.Pairwise dateDesc (sortByDateDesc (matchingInvoices s q)) := by
  have hlen : (sortByDateDesc (matchingInvoices s q)).length = (matchingInvoices s q).length :=
    (List.perm_insertionSort dateDesc _).length_eq
  refine ⟨rfl, ?_, List.perm_insertionSort dateDesc _, List.sorted_insertionSort dateDesc _⟩
  have hpage : ∀ p : Nat, fetchFilteredInvoices s q (Int.ofNat p + 1)
      = (((sortByDateDesc (matchingInvoices s q)).map (rowOf s)).drop (p * 6)).take 6 := by
    intro p
    have hoff : ((Int.ofNat p + 1 - 1) * ((ITEMS_PER_PAGE : Nat) : Int)).toNat = p * 6 := by
      simp only [ITEMS_PER_PAGE, Int.ofNat_eq_natCast]
      omega
    simp only [fetchFilteredInvoices]
    rw [hoff, List.map_take, List.map_drop]
    rfl
  have hk : fetchInvoicesPages s q
      = ((((sortByDateDesc (matchingInvoices s q)).map (rowOf s)).length + 5) / 6) := by
    unfold fetchInvoicesPages
    rw [List.length_map, hlen]
    rfl
  simp only [hpage]
  rw [hk]
  exact chunkCover _

/-- Claim C4: a form whose coerced amount is ≤ 0, or whose status is not
exactly "pending" or "paid", makes both `createInvoice` and `updateInvoice`
return a validation-error result carrying the field-specific message, with the
store unchanged and no revalidation. -/
theorem invalid_amount_or_status_rejected (s : Store) (today newId id : String) (form : FormData)
    (h : (∃ d, coerceNumber (fdGet form "amount") = some d ∧ qval d ≤ 0) ∨
         (∀ st, fdGet form "status" = some st → st ≠ "pending" ∧ st ≠ "paid")) :
    ∃ fe : FieldErrors,
      createInvoice s today newId form
        = ⟨.validationError fe "Missing Fields. Failed to Create Invoice.", s, false⟩ ∧
      updateInvoice s id form
        = ⟨.validationError fe "Missing Fields. Failed to Update Invoice.", s, false⟩ ∧
      ((∃ d, coerceNumber (fdGet form "amount") = some d ∧ qval d ≤ 0) →
        fe.amount = ["Please enter an amount greater than $0."]) ∧
      ((∀ st, fdGet form "status" = some st → st ≠ "pending" ∧ st ≠ "paid") →
        fe.status = ["Please select an invoice status."]) := by
  have hAmt : (∃ d, coerceNumber (fdGet form "amount") = some d ∧ qval d ≤ 0) →
      parseAmount (fdGet form "amount")
        = .error ["Please enter an amount greater than $0."] := by
    rintro ⟨d, hd, hle⟩
    unfold parseAmount
    rw [hd]
    have hm : ¬ 0 < d.m := by
      intro hpos
      have h10 : (0 : ℚ) < (10 : ℚ) ^ d.e := by positivity
      have hm2 : (0 : ℚ) < (d.m : ℚ) := by exact_mod_cast hpos
      have : (0 : ℚ) < qval d := mul_pos hm2 h10
      linarith [hle]
    simp [hm]
  have hSt : (∀ st, fdGet form "status" = some st → st ≠ "pending" ∧ st ≠ "paid") →
      parseStatus (fdGet form "status") = .error ["Please select an invoice status."] := by
    intro hst
    unfold parseStatus
    cases hfd : fdGet form "status" with
    | none => rfl
    | some st =>
      obtain ⟨h1, h2⟩ := hst st hfd
      simp [h1, h2]
  refine ⟨⟨errsOf (parseCustomerId (fdGet form "customer_id")),
          errsOf (parseAmount (fdGet form "amount")),
          errsOf (parseStatus (fdGet form "status"))⟩, ?_, ?_, ?_, ?_⟩
  case refine_3 =>
    intro ha
    rw [hAmt ha]
    rfl
  case refine_4 =>
    intro hs
    rw [hSt hs]
    rfl
  all_goals {
    have hsp : safeParseInvoiceForm form
        = .error ⟨errsOf (parseCustomerId (fdGet form "customer_id")),
                  errsOf (parseAmount (fdGet form "amount")),
                  errsOf (parseStatus (fdGet form "status"))⟩ := by
      unfold safeParseInvoiceForm
      rcases h with ha | hs
      · rw [hAmt ha]
        cases parseCustomerId (fdGet form "customer_id") <;>
          cases parseStatus (fdGet form "status") <;> rfl
      · rw [hSt hs]
        cases parseCustomerId (fdGet form "customer_id") <;>
          cases parseAmount (fdGet form "amount") <;> rfl
    first
      | (unfold createInvoice; rw [hsp])
      | (unfold updateInvoice; rw [hsp])
  }

/-- Witness for C4 on a form with amount "-5" and status "nope". -/
theorem invalid_amount_or_status_rejected_witness :
    (coerceNumber (fdGet badForm "amount") = some ⟨-5, 0⟩ ∧ qval ⟨-5, 0⟩ ≤ 0) ∧
    (∃ fe : FieldErrors,
      createInvoice wStore "2026-10-11" "i9" badForm
        = ⟨.validationError fe "Missing Fields. Failed to Create Invoice.", wStore, false⟩ ∧
      updateInvoice wStore "i1" badForm
        = ⟨.validationError fe "Missing Fields. Failed to Update Invoice.", wStore, false⟩ ∧
      ((∃ d, coerceNumber (fdGet badForm "amount") = some d ∧ qval d ≤ 0) →
        fe.amount = ["Please enter an amount greater than $0."]) ∧
      ((∀ st, fdGet badForm "status" = some st → st ≠ "pending" ∧ st ≠ "paid") →
        fe.status = ["Please select an invoice status."])) :=
  ⟨⟨by decide, by norm_num [qval]⟩,
   invalid_amount_or_status_rejected wStore "2026-10-11" "i9" "i1" badForm
     (Or.inl ⟨⟨-5, 0⟩, by decide, by norm_num [qval]⟩)⟩

/-- Claim C8: a successful `updateInvoice id` changes only the customer_id,
amount (validated amount × 100) and status of the row identified by id; that
row's id and date, every other invoice row, and the customer and revenue
tables are unchanged. -/
theorem updateInvoice_frame (s : Store) (id : String) (form : FormData) (v : ValidatedInvoice)
    (hv : safeParseInvoiceForm form = .ok v)
    (hid : s.invoices.any (fun inv => inv.id == id) = true)
    (hc : (findCustomer s v.customer_id).isSome = true) :
    (updateInvoice s id form).result = .redirect "/dashboard/invoices" ∧
    (updateInvoice s id form).revalidated = true ∧
    (updateInvoice s id form).store.customers = s.customers ∧
    (updateInvoice s id form).store.revenue = s.revenue ∧
    (updateInvoice s id form).store.invoices.length = s.invoices.length ∧
    ∀ (j : Nat) (old : Invoice), s.invoices[j]? = some old →
      (updateInvoice s id form).store.invoices[j]?
        = some (if old.id = id then
                  { old with customer_id := v.customer_id, amount := v.amount * 100,
                             status := v.status }
                else old) := by
  have hrw : updateInvoice s id form
      = ⟨.redirect "/dashboard/invoices",
         { s with invoices := s.invoices.map (fun inv =>
             if inv.id == id then
               { inv with customer_id := v.customer_id, amount := v.amount * 100,
                          status := v.status }
             else inv) },
         true⟩ := by
    unfold updateInvoice
    rw [hv]
    simp [hid, hc]
  rw [hrw]
  refine ⟨rfl, rfl, rfl, rfl, by simp, ?_⟩
  intro j old hj
  simp only [List.getElem?_map, hj, Option.map_some]
  by_cases he : old.id = id <;> simp [he]

/-- Witness for C8 on a two-invoice store: the updated row and the frame. -/
theorem updateInvoice_frame_witness :
    safeParseInvoiceForm uform = .ok ⟨"c2", qval ⟨25, 0⟩, "paid"⟩ ∧
    (updateInvoice store2 "i1" uform).store.customers = store2.customers ∧
    (updateInvoice store2 "i1" uform).store.revenue = store2.revenue ∧
    (updateInvoice store2 "i1" uform).store.invoices[1]?
      = some ⟨"i2", "c2", 700, "paid", "2024-02-02"⟩ := by
  have h := updateInvoice_frame store2 "i1" uform ⟨"c2", qval ⟨25, 0⟩, "paid"⟩ rfl rfl rfl
  refine ⟨rfl, h.2.2.1, h.2.2.2.1, ?_⟩
  have h2 := h.2.2.2.2.2 1 ⟨"i2", "c2", 700, "paid", "2024-02-02"⟩ (by decide)
  simpa using h2

end NextDashboard
